import Mathlib

/-!
Verification of `packages/task/src/browser/task-schema-updater.ts`
(class `TaskSchemaUpdater`).

Shallow embedding conventions:
* JavaScript strings are Lean `String`s; JS arrays of strings are `List String`.
* The two module-level mutable arrays (`supportedTaskTypes`, `problemMatcherNames`)
  are the fields of an explicit state record `SlotState`, threaded through every
  operation that reads or mutates them.
* JSON values are the inductive `Json`.  The constructors `refTypes` /
  `refMatchers` model a JS object field holding a *reference* to one of the two
  module-level arrays (the static `taskConfigurationSchema` object stores such
  references at its `enum` slots); `resolve` models `deepClone`, which replaces
  each reference by a copy of the array's contents at clone time.
* `InMemoryResources` (restricted to the single URI `taskSchemaId` this class
  ever touches) together with `JsonSchemaStore` is the record `Store`:
  `resource` is the content held for `taskSchemaId` (`none` before the first
  `add`), and `schemaAssociations` records the `registerSchema` calls.
  `InMemoryResources.update` throws exactly when the resource is absent;
  failure of the fallback `add`/`registerSchema` path (store unavailable) is
  injected through the `addFails` flag.
* The asynchronous remote call `taskServer.getRegisteredTaskTypes()` is a
  parameter of type `Except UpdateError (List String)`: `.ok ts` is a resolved
  promise, `.error e` a rejected one.  A JS exception aborts the rest of the
  function body, so the embedding returns the state unchanged from the point
  of the throw together with the propagated error.
* `inputsSchema.definitions!.inputs` comes from another package
  (`@theia/variable-resolver`); it is an opaque constant JSON value to this
  file and is therefore passed as the parameter `inputsDef` everywhere.
-/

/-- Source line 26: `export const taskSchemaId = 'vscode://schemas/tasks'`. -/
def taskSchemaId : String := "vscode://schemas/tasks"

mutual
/-- JSON values (`IJSONSchema` objects are JS objects). `refTypes` and
`refMatchers` are a field holding a reference to the corresponding
module-level array (used at the two `enum` slots of the static template). -/
inductive Json where
  | str : String → Json
  | arr : JsonList → Json
  | obj : JsonObj → Json
  | refTypes : Json
  | refMatchers : Json

/-- Spine of a JSON array. -/
inductive JsonList where
  | nil : JsonList
  | cons : Json → JsonList → JsonList

/-- Spine of a JSON object: ordered key/value fields (JS objects preserve
insertion order, which `JSON.stringify` follows). -/
inductive JsonObj where
  | nil : JsonObj
  | cons : String → Json → JsonObj → JsonObj
end

/-- Builds a `JsonList` from a Lean list (literal helper). -/
def JsonList.ofList : List Json → JsonList
  | [] => .nil
  | j :: r => .cons j (ofList r)

/-- Builds a `JsonObj` from a Lean association list (literal helper). -/
def JsonObj.ofList : List (String × Json) → JsonObj
  | [] => .nil
  | (k, v) :: r => .cons k v (ofList r)

/-- A JSON array of strings, as produced when `deepClone` copies one of the
module-level string arrays. -/
def JsonList.ofStrings : List String → JsonList
  | [] => .nil
  | s :: r => .cons (.str s) (ofStrings r)

/-- Literal helper: JSON array. -/
def jarr (l : List Json) : Json := .arr (JsonList.ofList l)

/-- Literal helper: JSON object. -/
def jobj (l : List (String × Json)) : Json := .obj (JsonObj.ofList l)

/-- The two module-level mutable arrays of the source file (lines 162-163):
`const problemMatcherNames: string[] = []` and
`const supportedTaskTypes = ['shell', 'process']`. -/
structure SlotState where
  supportedTaskTypes : List String
  problemMatcherNames : List String
deriving DecidableEq

/-- Module initialization values of the two arrays (source lines 162-163):
`problemMatcherNames` starts empty, `supportedTaskTypes` starts with the
default types `['shell', 'process']`. -/
def initialSlots : SlotState :=
  { supportedTaskTypes := ["shell", "process"], problemMatcherNames := [] }

/-- Source lines 115-118: `commandSchema`. -/
def commandSchema : Json := jobj [
  ("type", .str "string"),
  ("description", .str "The actual command or script to execute")]

/-- Source lines 120-126: `commandArgSchema`. -/
def commandArgSchema : Json := jobj [
  ("type", .str "array"),
  ("description", .str "A list of strings, each one being one argument to pass to the command"),
  ("items", jobj [("type", .str "string")])]

/-- Source lines 128-160: `commandOptionsSchema`. -/
def commandOptionsSchema : Json := jobj [
  ("type", .str "object"),
  ("description", .str "The command options used when the command is executed"),
  ("properties", jobj [
    ("cwd", jobj [
      ("type", .str "string"),
      ("description", .str "The directory in which the command will be executed"),
      ("default", .str "$\x7bworkspaceFolder\x7d")]),
    ("env", jobj [
      ("type", .str "object"),
      ("description", .str "The environment of the executed program or shell. If omitted the parent process\x27 environment is used")]),
    ("shell", jobj [
      ("type", .str "object"),
      ("description", .str "Configuration of the shell when task type is `shell`"),
      ("properties", jobj [
        ("executable", jobj [
          ("type", .str "string"),
          ("description", .str "The shell to use")]),
        ("args", jobj [
          ("type", .str "array"),
          ("description", .str "The arguments to be passed to the shell executable to run in command mode\n                        (e.g [\x27-c\x27] for bash or [\x27/S\x27, \x27/C\x27] for cmd.exe)"),
          ("items", jobj [("type", .str "string")])])])])])]

/-- Source lines 164-239: the static `taskConfigurationSchema` object.  Its two
`enum` fields hold references to the module-level arrays (`enum:
supportedTaskTypes` on line 179, `enum: problemMatcherNames` on lines 218
and 229), modelled by `Json.refTypes` / `Json.refMatchers`. -/
def taskConfigurationSchema : Json := jobj [
  ("$id", .str taskSchemaId),
  ("oneOf", jarr [
    jobj [
      ("allOf", jarr [
        jobj [
          ("type", .str "object"),
          ("required", jarr [.str "type"]),
          ("properties", jobj [
            ("label", jobj [
              ("type", .str "string"),
              ("description", .str "A unique string that identifies the task that is also used as task\x27s user interface label")]),
            ("type", jobj [
              ("type", .str "string"),
              ("enum", Json.refTypes),
              ("default", .str "shell"),
              ("description", .str "Determines what type of process will be used to execute the task. Only shell types will have output shown on the user interface")]),
            ("command", commandSchema),
            ("args", commandArgSchema),
            ("options", commandOptionsSchema),
            ("windows", jobj [
              ("type", .str "object"),
              ("description", .str "Windows specific command configuration that overrides the command, args, and options"),
              ("properties", jobj [
                ("command", commandSchema),
                ("args", commandArgSchema),
                ("options", commandOptionsSchema)])]),
            ("osx", jobj [
              ("type", .str "object"),
              ("description", .str "MacOS specific command configuration that overrides the command, args, and options"),
              ("properties", jobj [
                ("command", commandSchema),
                ("args", commandArgSchema),
                ("options", commandOptionsSchema)])]),
            ("linux", jobj [
              ("type", .str "object"),
              ("description", .str "Linux specific command configuration that overrides the default command, args, and options"),
              ("properties", jobj [
                ("command", commandSchema),
                ("args", commandArgSchema),
                ("options", commandOptionsSchema)])]),
            ("problemMatcher", jobj [
              ("oneOf", jarr [
                jobj [
                  ("type", .str "string"),
                  ("description", .str "Name of the problem matcher to parse the output of the task"),
                  ("enum", Json.refMatchers)],
                jobj [
                  ("type", .str "object"),
                  ("description", .str "User defined problem matcher(s) to parse the output of the task")],
                jobj [
                  ("type", .str "array"),
                  ("description", .str "Name(s) of the problem matcher(s) to parse the output of the task"),
                  ("items", jobj [
                    ("type", .str "string"),
                    ("enum", Json.refMatchers)])]])])])]])]])]

mutual
/-- Models `deepClone` (source line 85) with respect to the current contents
`s` of the two module-level arrays: structurally copies the value and replaces
each array reference by an array holding a copy of the referenced array's
contents at clone time. -/
def resolve (s : SlotState) : Json → Json
  | .str c => .str c
  | .arr l => .arr (resolveList s l)
  | .obj o => .obj (resolveObj s o)
  | .refTypes => .arr (JsonList.ofStrings s.supportedTaskTypes)
  | .refMatchers => .arr (JsonList.ofStrings s.problemMatcherNames)

/-- `resolve` mapped over an array spine. -/
def resolveList (s : SlotState) : JsonList → JsonList
  | .nil => .nil
  | .cons j r => .cons (resolve s j) (resolveList s r)

/-- `resolve` mapped over an object spine. -/
def resolveObj (s : SlotState) : JsonObj → JsonObj
  | .nil => .nil
  | .cons k v r => .cons k (resolve s v) (resolveObj s r)
end

/-- Source lines 79-91, `getTaskSchema()`: builds the published schema body.
`items` is `{ ...deepClone(taskConfigurationSchema) }` — a deep copy of the
static template with the current array contents spliced in; `inputs` is the
external constant `inputsSchema.definitions!.inputs` (parameter `inputsDef`),
shared by reference, not cloned. -/
def getTaskSchema (inputsDef : Json) (s : SlotState) : Json :=
  jobj [
    ("properties", jobj [
      ("tasks", jobj [
        ("type", .str "array"),
        ("items", resolve s taskConfigurationSchema)]),
      ("inputs", inputsDef)])]

mutual
/-- Models `JSON.stringify` on the JSON values of this file: fields and items
in insertion order, no added whitespace.  The `ref` constructors never occur
in a stringified value here because `getTaskSchema` resolves the template
before serialization (and `inputsDef` is reference-free). -/
def Json.stringify : Json → String
  | .str c => "\"" ++ c ++ "\""
  | .arr l => "[" ++ JsonList.stringifyItems l ++ "]"
  | .obj o => "\x7b" ++ JsonObj.stringifyFields o ++ "\x7d"
  | .refTypes => ""
  | .refMatchers => ""

/-- Comma-separated serialization of array items. -/
def JsonList.stringifyItems : JsonList → String
  | .nil => ""
  | .cons j .nil => j.stringify
  | .cons j r => j.stringify ++ "," ++ JsonList.stringifyItems r

/-- Comma-separated serialization of object fields. -/
def JsonObj.stringifyFields : JsonObj → String
  | .nil => ""
  | .cons k v .nil => "\"" ++ k ++ "\":" ++ v.stringify
  | .cons k v r => "\"" ++ k ++ "\":" ++ v.stringify ++ "," ++ JsonObj.stringifyFields r
end

/-- Source lines 94-96, `getStrigifiedTaskSchema()` (name as in the source):
`JSON.stringify(this.getTaskSchema())`. -/
def getStrigifiedTaskSchema (inputsDef : Json) (s : SlotState) : String :=
  (getTaskSchema inputsDef s).stringify

/-- The publish target: `InMemoryResources` restricted to `taskSchemaId`
(field `resource`: the stored content, `none` before the first `add`),
plus the `JsonSchemaStore` association index (field `schemaAssociations`:
the `(fileMatch, url)` pairs passed to `registerSchema`, in call order). -/
structure Store where
  resource : Option String
  schemaAssociations : List (List String × String)
deriving DecidableEq

/-- The store before any publication: no resource registered for
`taskSchemaId`, no schema association. -/
def emptyStore : Store := { resource := none, schemaAssociations := [] }

/-- Source lines 56-68, `update()`: serialize the current schema, try
`inmemoryResources.update` (which throws iff no resource exists for the URI);
on that failure fall back to `inmemoryResources.add` plus
`jsonSchemaStore.registerSchema({ fileMatch: ['tasks.json'], url })`.
Returns the store after the call and whether the register-and-associate
fallback path was taken. -/
def update (inputsDef : Json) (slots : SlotState) (st : Store) : Store × Bool :=
  let schemaContent := getStrigifiedTaskSchema inputsDef slots
  match st.resource with
  | some _ => ({ st with resource := some schemaContent }, false)
  | none =>
      ({ resource := some schemaContent,
         schemaAssociations := st.schemaAssociations ++ [(["tasks.json"], taskSchemaId)] },
       true)

/-- Failures observable by this class: rejection of the remote
`taskServer.getRegisteredTaskTypes()` promise, and a resource-store write
failure on the fallback registration path. -/
inductive UpdateError where
  | remoteFetchFailed : UpdateError
  | resourceStoreFailed : UpdateError
deriving DecidableEq

/-- `update()` with store-write failure injection: when the fallback
`add`/`registerSchema` path would run and the store is unavailable
(`addFails = true`), the call throws and the store is left untouched.
With `addFails = false` this is exactly `update`. -/
def updateRun (addFails : Bool) (inputsDef : Json) (slots : SlotState) (st : Store) :
    Except UpdateError (Store × Bool) :=
  match st.resource with
  | some _ => .ok (update inputsDef slots st)
  | none =>
      if addFails then .error .resourceStoreFailed
      else .ok (update inputsDef slots st)

/-- Sigil test from source line 100: `m.name.startsWith('$')`.  A JS string
starts with the one-character string `'$'` iff its first code unit is `$`. -/
def startsWithSigil (n : String) : Bool :=
  match n.data with
  | [] => false
  | c :: _ => c == '$'

/-- Sigil normalization from source line 100:
`m.name.startsWith('$') ? m.name : ` followed by the template `` `$${m.name}` ``,
i.e. keep the name if it already starts with `$`, otherwise prepend `$`. -/
def normalizeName (n : String) : String :=
  if startsWithSigil n then n else "$" ++ n

/-- JS code-unit comparison underlying the default `Array.prototype.sort()`
on strings: lexicographic on the sequences of code units. -/
def charListLe : List Char → List Char → Bool
  | [], _ => true
  | _ :: _, [] => false
  | a :: as, b :: bs =>
    if a.toNat < b.toNat then true
    else if b.toNat < a.toNat then false
    else charListLe as bs

/-- Insertion step of the sort. -/
def sortedInsert (x : String) : List String → List String
  | [] => [x]
  | y :: ys => if charListLe x.data y.data then x :: y :: ys else y :: sortedInsert x ys

/-- Models `.sort()` (source line 75): default lexicographic string sort
(insertion sort — stable, same result as any comparison sort on the
deduplicated input). -/
def sortStrings : List String → List String
  | [] => []
  | x :: xs => sortedInsert x (sortStrings xs)

/-- Models `new Set([...a, ...b])` then `Array.from(set.values())` (source
lines 74-75): deduplication keeping the first occurrence of each element, in
insertion order. -/
def jsSetDedup (l : List String) : List String :=
  l.foldl (fun acc x => if x ∈ acc then acc else acc ++ [x]) []

/-- Source lines 71-76, `getRegisteredTaskTypes()` (pure value part): the
deduplicated, sorted union of the server-reported types and the local
task-definition registry's types (`getAll().map(def => def.taskType)`).
Note the body adds no default types of its own. -/
def getRegisteredTaskTypes (serverTypes localTypes : List String) : List String :=
  sortStrings (jsSetDedup (serverTypes ++ localTypes))

/-- Observable actions of the component: a successful publication of the
schema document, and the three event subscriptions made by `init()`. -/
inductive SchemaEvent where
  | publish : SchemaEvent
  | subscribeProblemMatcherChange : SchemaEvent
  | subscribeTaskDefinitionRegistered : SchemaEvent
  | subscribeTaskDefinitionUnregistered : SchemaEvent
deriving DecidableEq

/-- Result of running one updater method: the two module-level arrays and the
store after the call, the publications performed, and the method's outcome
(`.ok registered` for normal return, `.error e` for a propagated exception). -/
structure RunResult where
  slots : SlotState
  store : Store
  events : List SchemaEvent
  outcome : Except UpdateError Bool

/-- Source lines 99-104, `updateProblemMatcherNames()`: map the registry's
current names (`problemMatcherRegistry.getAll().map(m => ...)`, parameter
`registryNames`) through sigil normalization, replace the contents of the
module-level `problemMatcherNames` array (`length = 0` then `push`), then call
`this.update()`.  A publish failure propagates after the array was already
overwritten. -/
def updateProblemMatcherNamesRun (addFails : Bool) (inputsDef : Json)
    (registryNames : List String) (slots : SlotState) (st : Store) : RunResult :=
  let matcherNames := registryNames.map normalizeName
  let slots' := { slots with problemMatcherNames := matcherNames }
  match updateRun addFails inputsDef slots' st with
  | .ok (st', registered) =>
      { slots := slots', store := st', events := [.publish], outcome := .ok registered }
  | .error e =>
      { slots := slots', store := st, events := [], outcome := .error e }

/-- Source lines 107-112, `updateSupportedTaskTypes()`: await
`getRegisteredTaskTypes()` (whose first step is the remote call, parameter
`remote`); on rejection the exception propagates before any mutation, leaving
the arrays and the store untouched and publishing nothing.  On success,
replace the contents of the module-level `supportedTaskTypes` array
(`length = 0` then `push`) with the computed union and call `this.update()`. -/
def updateSupportedTaskTypesRun (addFails : Bool) (inputsDef : Json)
    (remote : Except UpdateError (List String)) (localTypes : List String)
    (slots : SlotState) (st : Store) : RunResult :=
  match remote with
  | .error e => { slots := slots, store := st, events := [], outcome := .error e }
  | .ok serverTypes =>
      let allTypes := getRegisteredTaskTypes serverTypes localTypes
      let slots' := { slots with supportedTaskTypes := allTypes }
      match updateRun addFails inputsDef slots' st with
      | .ok (st', registered) =>
          { slots := slots', store := st', events := [.publish], outcome := .ok registered }
      | .error e =>
          { slots := slots', store := st, events := [], outcome := .error e }

/-- Source lines 71-76, `getRegisteredTaskTypes()` as a method call against the
component state: it only reads the two registries and returns a fresh array —
the two module-level arrays and the store are untouched and nothing is
published. -/
def getRegisteredTaskTypesRun (serverTypes localTypes : List String)
    (slots : SlotState) (st : Store) : List String × SlotState × Store × List SchemaEvent :=
  (getRegisteredTaskTypes serverTypes localTypes, slots, st, [])

/-- Source lines 45-54, `init()` (`@postConstruct`): run
`updateProblemMatcherNames()` synchronously, start
`updateSupportedTaskTypes()` (async, not awaited — it suspends at the remote
call), install the three change subscriptions, then the pending async
recomputation resolves.  The event list records publications and
subscriptions in that observable order. -/
def init (inputsDef : Json) (registryNames : List String)
    (remote : Except UpdateError (List String)) (localTypes : List String)
    (slots : SlotState) (st : Store) : SlotState × Store × List SchemaEvent :=
  let r1 := updateProblemMatcherNamesRun false inputsDef registryNames slots st
  let subs : List SchemaEvent :=
    [.subscribeProblemMatcherChange, .subscribeTaskDefinitionRegistered,
     .subscribeTaskDefinitionUnregistered]
  let r2 := updateSupportedTaskTypesRun false inputsDef remote localTypes r1.slots r1.store
  (r2.slots, r2.store, r1.events ++ subs ++ r2.events)

/-- A sequence of calls to `update()` (one per triggering recomputation),
threading the store; returns the final store and, per call, whether the
register-and-associate fallback path was taken. -/
def runPublishes (inputsDef : Json) : List SlotState → Store → Store × List Bool
  | [], st => (st, [])
  | s :: rest, st =>
      let p := update inputsDef s st
      let q := runPublishes inputsDef rest p.1
      (q.1, p.2 :: q.2)

/-- Reads back a JSON array of strings (inverse of `JsonList.ofStrings` on its
image); non-string items are skipped. -/
def JsonList.toStrings : JsonList → List String
  | .nil => []
  | .cons (.str c) r => c :: toStrings r
  | .cons _ r => toStrings r

mutual
/-- Collects, in document order, the string-array values of all fields named
`enum` in a JSON value. -/
def enumArraysIn : Json → List (List String)
  | .str _ => []
  | .arr l => enumArraysInList l
  | .obj o => enumArraysInObj o
  | .refTypes => []
  | .refMatchers => []

/-- `enumArraysIn` over an array spine. -/
def enumArraysInList : JsonList → List (List String)
  | .nil => []
  | .cons j r => enumArraysIn j ++ enumArraysInList r

/-- `enumArraysIn` over an object spine. -/
def enumArraysInObj : JsonObj → List (List String)
  | .nil => []
  | .cons k v r =>
      (if k = "enum" then
        (match v with
         | .arr l => [l.toStrings]
         | _ => [])
       else enumArraysIn v) ++ enumArraysInObj r
end

/-! ## Helper lemmas -/

/-- A string obtained by prepending the sigil starts with the sigil. -/
theorem startsWithSigil_append (s : String) : startsWithSigil ("$" ++ s) = true := by
  have h : ("$" ++ s).data = '$' :: s.data := by rw [String.data_append]; rfl
  simp [startsWithSigil, h]

/-- Resolving a cloned string array is the identity: clones carry no
reference back into the mutable slots. -/
theorem resolveList_ofStrings (s : SlotState) (l : List String) :
    resolveList s (JsonList.ofStrings l) = JsonList.ofStrings l := by
  induction l with
  | nil => rfl
  | cons x r ih => simp [JsonList.ofStrings, resolveList, resolve, ih]

/-- Reading back a cloned string array yields the original list. -/
theorem toStrings_ofStrings (l : List String) :
    JsonList.toStrings (JsonList.ofStrings l) = l := by
  induction l with
  | nil => rfl
  | cons x r ih => simp [JsonList.ofStrings, JsonList.toStrings, ih]

/-- A deep-cloned template is a fixed point of any later resolution: the
clone holds copies, not references, so a second resolution (under any state)
changes nothing. -/
theorem resolve_template_fixed (s t : SlotState) :
    resolve t (resolve s taskConfigurationSchema) = resolve s taskConfigurationSchema := by
  simp [taskConfigurationSchema, commandSchema, commandArgSchema, commandOptionsSchema,
    jobj, jarr, JsonObj.ofList, JsonList.ofList, resolve, resolveObj, resolveList,
    resolveList_ofStrings]

/-- The `enum` slots of the cloned template hold exactly the current contents
of the two slots: the type enum once, the matcher enum twice (single-name and
array-of-names positions). -/
theorem enumArrays_of_resolved_template (s : SlotState) :
    enumArraysIn (resolve s taskConfigurationSchema)
      = [s.supportedTaskTypes, s.problemMatcherNames, s.problemMatcherNames] := by
  simp [taskConfigurationSchema, commandSchema, commandArgSchema, commandOptionsSchema,
    jobj, jarr, JsonObj.ofList, JsonList.ofList, resolve, resolveObj, resolveList,
    resolveList_ofStrings, enumArraysIn, enumArraysInList, enumArraysInObj,
    toStrings_ofStrings]

/-- `update()` against a store that already holds the resource: pure in-place
content update, no fallback, no association. -/
theorem update_of_present (inputsDef : Json) (slots : SlotState) (st : Store) (c : String)
    (h : st.resource = some c) :
    update inputsDef slots st
      = ({ st with resource := some (getStrigifiedTaskSchema inputsDef slots) }, false) := by
  simp [update, h]

/-- Once the resource exists, every further publication takes the update path
and never touches the association index. -/
theorem runPublishes_all_updates (inputsDef : Json) (l : List SlotState) :
    ∀ st : Store, st.resource.isSome →
      (runPublishes inputsDef l st).2 = List.replicate l.length false
    ∧ (runPublishes inputsDef l st).1.schemaAssociations = st.schemaAssociations := by
  induction l with
  | nil => exact fun st _ => ⟨rfl, rfl⟩
  | cons s rest ih =>
      intro st h
      obtain ⟨c, hc⟩ := Option.isSome_iff_exists.mp h
      have hup := update_of_present inputsDef s st c hc
      have hnext := ih { st with resource := some (getStrigifiedTaskSchema inputsDef s) } (by simp)
      refine ⟨?_, ?_⟩
      · simp [runPublishes, hup, hnext.1, List.replicate_succ]
      · simp [runPublishes, hup, hnext.2]

/-! ## Claim theorems -/

/-- C1: the spec claims the recomputed task-type enum is always the sorted
deduplicated union of defaults ∪ local ∪ remote and hence a superset of
`{"shell", "process"}`.  The code's own doc comment ("including the default
types") says the same, but the implementation unions only the remote and
local sources: with an empty remote result and an empty local registry the
recomputation wipes the defaults and publishes an empty enum, while the
claimed union would be `["process", "shell"]`. -/
theorem taskTypes_defaults_dropped :
    getRegisteredTaskTypes [] [] = []
  ∧ (updateSupportedTaskTypesRun false (jobj []) (.ok []) [] initialSlots
      emptyStore).slots.supportedTaskTypes = []
  ∧ sortStrings (jsSetDedup (["shell", "process"] ++ ([] ++ []))) = ["process", "shell"]
  ∧ (([] : List String) ≠ ["process", "shell"]) :=
  ⟨rfl, rfl, by decide, by decide⟩

/-- C2 counterexample: the matcher recomputation neither deduplicates nor
sorts.  Registry names `["bar", "$bar"]` both normalize to `"$bar"`, so the
published list is `["$bar", "$bar"]` (a duplicate), not the claimed
deduplicated set `["$bar"]`; registry names `["b", "a"]` publish as
`["$b", "$a"]`, not the claimed sorted `["$a", "$b"]`. -/
theorem problemMatcherNames_not_deduped_or_sorted :
    (updateProblemMatcherNamesRun false (jobj []) ["bar", "$bar"] initialSlots
        emptyStore).slots.problemMatcherNames = ["$bar", "$bar"]
  ∧ sortStrings (jsSetDedup (["bar", "$bar"].map normalizeName)) = ["$bar"]
  ∧ ((["$bar", "$bar"] : List String) ≠ ["$bar"])
  ∧ (updateProblemMatcherNamesRun false (jobj []) ["b", "a"] initialSlots
        emptyStore).slots.problemMatcherNames = ["$b", "$a"]
  ∧ sortStrings (jsSetDedup (["b", "a"].map normalizeName)) = ["$a", "$b"]
  ∧ ((["$b", "$a"] : List String) ≠ ["$a", "$b"]) :=
  ⟨rfl, by decide, by decide, rfl, by decide, by decide⟩

/-- C2 (amended): after each matcher recomputation the published list equals
the sigil-normalized registry names in registry order (so it never contains a
name not derived from a currently-registered one, but it is neither
deduplicated nor sorted), the task-type slot is untouched, and one
publication follows. -/
theorem problemMatcherNames_normalized_registry_order (inputsDef : Json)
    (registryNames : List String) (slots : SlotState) (st : Store) :
    (updateProblemMatcherNamesRun false inputsDef registryNames slots
        st).slots.problemMatcherNames = registryNames.map normalizeName
  ∧ (updateProblemMatcherNamesRun false inputsDef registryNames slots
        st).slots.supportedTaskTypes = slots.supportedTaskTypes
  ∧ (updateProblemMatcherNamesRun false inputsDef registryNames slots
        st).events = [SchemaEvent.publish] := by
  cases h : st.resource <;>
    simp [updateProblemMatcherNamesRun, updateRun, update, h]

/-- C3 counterexample: a fully successful start publishes the document twice
(once per aggregator: first after the synchronous problem-matcher
recomputation, then after the asynchronous task-type recomputation resolves),
not once as claimed. -/
theorem init_publishes_twice :
    (init (jobj []) [] (.ok []) [] initialSlots emptyStore).2.2
      = [SchemaEvent.publish, .subscribeProblemMatcherChange,
         .subscribeTaskDefinitionRegistered, .subscribeTaskDefinitionUnregistered,
         .publish]
  ∧ ((init (jobj []) [] (.ok []) [] initialSlots emptyStore).2.2.count
        SchemaEvent.publish ≠ 1) :=
  ⟨rfl, by decide⟩

/-- C3 (amended): at start the component recomputes each Name Set once and
each recomputation triggers its own publication, so a fully successful start
publishes exactly twice; the three change subscriptions are installed after
the first (synchronous) publication and before the asynchronous task-type
recomputation resolves and publishes. -/
theorem init_trace (inputsDef : Json) (registryNames serverTypes localTypes : List String)
    (slots : SlotState) (st : Store) :
    (init inputsDef registryNames (.ok serverTypes) localTypes slots st).2.2
      = [SchemaEvent.publish, .subscribeProblemMatcherChange,
         .subscribeTaskDefinitionRegistered, .subscribeTaskDefinitionUnregistered,
         .publish] := by
  cases h : st.resource <;>
    simp [init, updateProblemMatcherNamesRun, updateSupportedTaskTypesRun,
      updateRun, update, h]

/-- C4: when the remote task-type retrieval fails, the exception propagates
before any mutation: both Name Sets and the store are bit-for-bit unchanged,
no publication happens for that trigger, and the rejection reaches the
caller of `updateSupportedTaskTypes()`. -/
theorem taskTypes_remote_failure_changes_nothing (addFails : Bool) (inputsDef : Json)
    (e : UpdateError) (localTypes : List String) (slots : SlotState) (st : Store) :
    updateSupportedTaskTypesRun addFails inputsDef (.error e) localTypes slots st
      = { slots := slots, store := st, events := [], outcome := .error e } := rfl

/-- C5: starting from a store with no resource under `taskSchemaId`, the
first publication takes the register-and-associate fallback exactly once, and
every subsequent publication takes the in-place update path and never adds
another schema association. -/
theorem first_publish_registers_then_only_updates (inputsDef : Json)
    (s : SlotState) (rest : List SlotState) :
    (runPublishes inputsDef (s :: rest) emptyStore).2
      = true :: List.replicate rest.length false
  ∧ (runPublishes inputsDef (s :: rest) emptyStore).1.schemaAssociations
      = [(["tasks.json"], taskSchemaId)] := by
  have h1 : update inputsDef s emptyStore
      = ({ resource := some (getStrigifiedTaskSchema inputsDef s),
           schemaAssociations := [(["tasks.json"], taskSchemaId)] }, true) := rfl
  have h2 := runPublishes_all_updates inputsDef rest
      { resource := some (getStrigifiedTaskSchema inputsDef s),
        schemaAssociations := [(["tasks.json"], taskSchemaId)] } (by simp)
  refine ⟨?_, ?_⟩
  · simp [runPublishes, h1, h2.1]
  · simp [runPublishes, h1, h2.2]

/-- C6: sigil normalization keeps a name that already starts with `$`,
prepends `$` otherwise, and is idempotent; in particular a matcher already
named `"$bar"` stays `"$bar"` and never becomes `"$$bar"`. -/
theorem normalizeName_sigil_policy (n : String) :
    (startsWithSigil n = true → normalizeName n = n)
  ∧ (startsWithSigil n = false → normalizeName n = "$" ++ n)
  ∧ normalizeName (normalizeName n) = normalizeName n
  ∧ normalizeName "$bar" = "$bar" := by
  refine ⟨fun h => by simp [normalizeName, h], fun h => by simp [normalizeName, h],
    ?_, by decide⟩
  by_cases h : startsWithSigil n = true
  · simp [normalizeName, h]
  · simp only [Bool.not_eq_true] at h
    simp [normalizeName, h, startsWithSigil_append]

/-- C6 witness: normalizing `"foo"` (which does not start with the sigil)
prepends exactly one `$`. -/
theorem normalizeName_sigil_policy_witness :
    normalizeName "foo" = "$" ++ "foo" :=
  (normalizeName_sigil_policy "foo").2.1 (by decide)

/-- C7: serialization is a deterministic function of the aggregated state —
two states with equal Name Set contents stringify to the identical string. -/
theorem getStrigifiedTaskSchema_deterministic (inputsDef : Json) (s t : SlotState)
    (h1 : s.supportedTaskTypes = t.supportedTaskTypes)
    (h2 : s.problemMatcherNames = t.problemMatcherNames) :
    getStrigifiedTaskSchema inputsDef s = getStrigifiedTaskSchema inputsDef t := by
  have hst : s = t := by cases s; cases t; simp_all
  rw [hst]

/-- C7 witness: two syntactically different states with the same Name Set
contents produce the same serialized schema. -/
theorem getStrigifiedTaskSchema_deterministic_witness :
    getStrigifiedTaskSchema (jobj []) ⟨["shell", "process"], []⟩
      = getStrigifiedTaskSchema (jobj []) initialSlots :=
  getStrigifiedTaskSchema_deterministic (jobj []) ⟨["shell", "process"], []⟩
    initialSlots rfl rfl

/-- C8: schema assembly deep-copies the template and splices in the current
Name Set values in one pass: a schema assembled under state `s` is a fixed
point of resolution under any later state `t` (it holds no reference into the
mutable slots, given the external `inputs` fragment holds none), and its
`enum` slots carry exactly the values both Name Sets had at assembly time. -/
theorem getTaskSchema_snapshot (inputsDef : Json) (s t : SlotState)
    (h : resolve t inputsDef = inputsDef) :
    resolve t (getTaskSchema inputsDef s) = getTaskSchema inputsDef s
  ∧ enumArraysIn (resolve s taskConfigurationSchema)
      = [s.supportedTaskTypes, s.problemMatcherNames, s.problemMatcherNames] := by
  refine ⟨?_, enumArrays_of_resolved_template s⟩
  have h1 : resolve t (getTaskSchema inputsDef s)
      = jobj [("properties", jobj [("tasks", jobj [("type", .str "array"),
          ("items", resolve t (resolve s taskConfigurationSchema))]),
          ("inputs", resolve t inputsDef)])] := rfl
  rw [h1, resolve_template_fixed s t, h]
  rfl

/-- C8 witness: a schema assembled under `⟨["a"], ["$m"]⟩` is unchanged by a
later resolution under `⟨["x"], ["y"]⟩`, and its enum slots carry `["a"]` and
`["$m"]`. -/
theorem getTaskSchema_snapshot_witness :
    resolve ⟨["x"], ["y"]⟩ (getTaskSchema (jobj []) ⟨["a"], ["$m"]⟩)
      = getTaskSchema (jobj []) ⟨["a"], ["$m"]⟩
  ∧ enumArraysIn (resolve ⟨["a"], ["$m"]⟩ taskConfigurationSchema)
      = [["a"], ["$m"], ["$m"]] :=
  getTaskSchema_snapshot (jobj []) ⟨["a"], ["$m"]⟩ ⟨["x"], ["y"]⟩ rfl

/-- C9: Name Set mutation and publication are not atomic under publish
failure: when the in-place update fails (no resource) and the fallback
registration also throws, `updateProblemMatcherNames()` still leaves the
matcher slot holding the newly recomputed contents while the store is
untouched and the failure propagates — no rollback. -/
theorem matcher_update_survives_publish_failure (inputsDef : Json)
    (registryNames : List String) (slots : SlotState) (st : Store)
    (h : st.resource = none) :
    (updateProblemMatcherNamesRun true inputsDef registryNames slots
        st).slots.problemMatcherNames = registryNames.map normalizeName
  ∧ (updateProblemMatcherNamesRun true inputsDef registryNames slots st).store = st
  ∧ (updateProblemMatcherNamesRun true inputsDef registryNames slots st).outcome
      = .error .resourceStoreFailed := by
  simp [updateProblemMatcherNamesRun, updateRun, h]

/-- C9 witness: concrete run with an absent resource and a failing fallback:
the matcher slot ends as `["$foo"]` although both publish paths threw. -/
theorem matcher_update_survives_publish_failure_witness :
    (updateProblemMatcherNamesRun true (jobj []) ["foo"] initialSlots
        emptyStore).slots.problemMatcherNames = ["foo"].map normalizeName
  ∧ (updateProblemMatcherNamesRun true (jobj []) ["foo"] initialSlots
        emptyStore).store = emptyStore
  ∧ (updateProblemMatcherNamesRun true (jobj []) ["foo"] initialSlots
        emptyStore).outcome = .error .resourceStoreFailed :=
  matcher_update_survives_publish_failure (jobj []) ["foo"] initialSlots emptyStore rfl

/-- C10: `getRegisteredTaskTypes()` is read-only: it leaves both Name Sets
and the store unchanged, publishes nothing, and only its return value carries
the computed sorted deduplicated union of the two sources. -/
theorem getRegisteredTaskTypes_readonly (serverTypes localTypes : List String)
    (slots : SlotState) (st : Store) :
    (getRegisteredTaskTypesRun serverTypes localTypes slots st).2.1 = slots
  ∧ (getRegisteredTaskTypesRun serverTypes localTypes slots st).2.2.1 = st
  ∧ (getRegisteredTaskTypesRun serverTypes localTypes slots st).2.2.2 = []
  ∧ (getRegisteredTaskTypesRun serverTypes localTypes slots st).1
      = sortStrings (jsSetDedup (serverTypes ++ localTypes)) :=
  ⟨rfl, rfl, rfl, rfl⟩
